import Mathlib

/-!
Verification of the NATS wire-protocol parser repository
(src/protocol/parser.py, parser_300.py, parser_310.py).

Byte strings are modelled as `List Nat` (each element a byte value 0..255;
Python `str` values built with `chr`/`decode` over ASCII inputs coincide with
the underlying byte values, so argument text is modelled with the same lists).
Python slicing (including negative indices) is modelled by `pySlice*` below.

The module `protocol.common` imported by parser_300.py / parser_310.py is not
part of the provided sources; its members (CRLF, event classes,
ParserClosedError, ProtocolError, parse_info, Character/State/Operation) are
modelled from the spec where needed, as noted at each definition.
-/

/-- Python slice-bound resolution: for a sequence of length `n`, a slice bound
`i` resolves to `n + i` clamped to `[0, n]` when negative, else `min i n`. -/
def sliceIdx (n : Nat) (i : Int) : Nat :=
  if i < 0 then ((n : Int) + i).toNat else min i.toNat n

/-- Python `l[i:]`. -/
def pySliceFrom (l : List Nat) (i : Int) : List Nat :=
  l.drop (sliceIdx l.length i)

/-- Python `l[:j]`. -/
def pySliceTo (l : List Nat) (j : Int) : List Nat :=
  l.take (sliceIdx l.length j)

/-- Python `l[i:j]`. -/
def pySlice (l : List Nat) (i j : Int) : List Nat :=
  (l.take (sliceIdx l.length j)).drop (sliceIdx l.length i)

/-- Index of the first CRLF (13, 10) in a byte list, as used by
`bytes.index(CRLF)` / `CRLF in data` in the source. -/
def findCRLF : List Nat → Option Nat
  | 13 :: 10 :: _ => some 0
  | _ :: rest => (findCRLF rest).map (fun i => i + 1)
  | [] => none

/-- Python `split(sep)` for a single one-byte separator: keeps empty segments,
and returns `[[]]` on empty input (like `"".split(" ") == [""]`). -/
def splitOnByte (sep : Nat) : List Nat → List (List Nat)
  | [] => [[]]
  | b :: rest =>
    match splitOnByte sep rest with
    | [] => [[b]]
    | h :: t => if b = sep then [] :: h :: t else (b :: h) :: t

/-- Digits of a decimal literal folded to a `Nat`; `none` if empty or if any
byte is not an ASCII digit. -/
def pyIntDigits (l : List Nat) : Option Nat :=
  if l = [] then none
  else if l.all (fun b => 48 ≤ b && b ≤ 57) then
    some (l.foldl (fun acc b => acc * 10 + (b - 48)) 0)
  else none

/-- Python `int(text)` restricted to the subset exercised by the protocol:
an optional sign followed by decimal digits. (The source relies on CPython
`int`, which additionally tolerates surrounding whitespace and underscores;
no protocol frame in the claims uses those forms.) `none` models the
`ValueError` raised on malformed input. -/
def pyInt (l : List Nat) : Option Int :=
  match l with
  | 43 :: rest => (pyIntDigits rest).map (fun n => (n : Int))
  | 45 :: rest => (pyIntDigits rest).map (fun n => -(n : Int))
  | _ => (pyIntDigits l).map (fun n => (n : Int))

/-- ASCII lower-casing of one byte, as `str.lower` acts on the ASCII range. -/
def lowerByte (b : Nat) : Nat :=
  if 65 ≤ b ∧ b ≤ 90 then b + 32 else b

/-- Protocol operations (source `Operation` IntEnum). -/
inductive Operation
  | OK | ERR | MSG | HMSG | INFO | PING | PONG
deriving DecidableEq, Repr

/-- Fields of a MSG/HMSG event (source `MsgEvent`; parser_300's separate
`MsgEvent`/`HMsgEvent` classes from `protocol.common` are modelled from the
spec with the same field set, a plain MSG carrying an empty `header`). -/
structure MsgFields where
  sid : Int
  subject : List Nat
  reply_to : List Nat
  payload : List Nat
  header : List Nat
deriving DecidableEq, Repr

/-- Protocol events. `info` carries the raw bytes of the INFO argument;
the JSON decoding performed by `parse_info` is not modelled (no claim
exercises an INFO frame). -/
inductive Event
  | simple (op : Operation)
  | err (message : List Nat)
  | msg (op : Operation) (fields : MsgFields)
  | info (raw : List Nat)
deriving DecidableEq, Repr

/-- Failure outcomes observable from a `parse` call.
`protocolError` models parser.py / parser_310.py `ProtocolError(invalid_byte,
bad_value)`; `protocolError300` models parser_300.py `ProtocolError()` (no
arguments); `parserClosedError` is modelled from the spec (raised by
parser_300.py `parse` when its generator has finished); `stopIteration` is the
bare `StopIteration` escaping parser.py / parser_310.py `parse` when the
generator has finished; `indexError` models out-of-range indexing
(`IndexError`); `assertionError` models a failed `assert`; `fuelExhausted` is
an artifact of the bounded interpreter and is never produced for the inputs
considered in this file. -/
inductive PErr
  | protocolError (invalid_byte : Nat) (bad_value : List Nat)
  | protocolError300
  | parserClosedError
  | stopIteration
  | indexError
  | assertionError
  | fuelExhausted
deriving DecidableEq, Repr

deriving instance DecidableEq for Except

/-- States of the per-byte machine (source `State` IntEnum, shared by
parser.py and parser_310.py). -/
inductive MachineState
  | OP_START | OP_PLUS | OP_PLUS_O | OP_PLUS_OK
  | OP_MINUS | OP_MINUS_E | OP_MINUS_ER | OP_MINUS_ERR | OP_MINUS_ERR_SPC
  | MINUS_ERR_ARG
  | OP_M | OP_MS | OP_MSG | OP_MSG_SPC | MSG_ARG | MSG_PAYLOAD | MSG_END
  | OP_H | OP_HM | OP_HMS | OP_HMSG | OP_HMSG_SPC | HMSG_ARG | HMSG_END
  | HMSG_PAYLOAD
  | OP_P | OP_PI | OP_PIN | OP_PING | OP_PO | OP_PON | OP_PONG
  | OP_I | OP_IN | OP_INF | OP_INFO | OP_INFO_SPC | INFO_ARG
  | OP_END
deriving DecidableEq, Repr

/-- Version record (source `Version` dataclass); `dev` kept as byte text. -/
structure Version where
  major : Int
  minor : Int
  patch : Int
  dev : List Nat
deriving DecidableEq, Repr

/-- Source `parse_version` (parser.py lines 757-770): split on every `-` and
take element 1 (when present) as `dev`; split element 0 on `.`; assign
`major`/`minor`/`patch` from tokens 0/1/2 only when the token COUNT exceeds
1/2/3 respectively. `none` models an `int()` ValueError escaping. -/
def parse_version (version : List Nat) : Option Version :=
  let v := splitOnByte 45 version
  let dev : List Nat := if 1 < v.length then v.getD 1 [] else []
  let tokens := splitOnByte 46 (v.getD 0 [])
  let n := tokens.length
  do
    let major ← if 1 < n then pyInt (tokens.getD 0 []) else some 0
    let minor ← if 2 < n then pyInt (tokens.getD 1 []) else some 0
    let patch ← if 3 < n then pyInt (tokens.getD 2 []) else some 0
    some ⟨major, minor, patch, dev⟩

/-- MSG argument-line processing shared in shape by all three sources:
split on single spaces; 4 tokens are subject/sid/reply_to/total_size,
3 tokens have no reply_to; `int()` of sid and total_size.
`none` collapses the wrong-token-count and int-failure exception paths
(an exception always kills the generator, so which interior assignment
happened first is not observable through `parse`/drain). -/
def msgArgs (text : List Nat) : Option (List Nat × Int × List Nat × Int) :=
  match splitOnByte 32 text with
  | [subject, rawSid, replyTo, rawTotal] => do
      let sid ← pyInt rawSid
      let total ← pyInt rawTotal
      some (subject, sid, replyTo, total)
  | [subject, rawSid, rawTotal] => do
      let sid ← pyInt rawSid
      let total ← pyInt rawTotal
      some (subject, sid, ([] : List Nat), total)
  | _ => none

/-- HMSG argument-line processing: 5 tokens are
subject/sid/reply_to/header_size/total_size, 4 tokens have no reply_to. -/
def hmsgArgs (text : List Nat) : Option (List Nat × Int × List Nat × Int × Int) :=
  match splitOnByte 32 text with
  | [subject, rawSid, replyTo, rawHeader, rawTotal] => do
      let hs ← pyInt rawHeader
      let ts ← pyInt rawTotal
      let sid ← pyInt rawSid
      some (subject, sid, replyTo, hs, ts)
  | [subject, rawSid, rawHeader, rawTotal] => do
      let hs ← pyInt rawHeader
      let ts ← pyInt rawTotal
      let sid ← pyInt rawSid
      some (subject, sid, ([] : List Nat), hs, ts)
  | _ => none

/-- One iteration outcome of a parser generator loop. -/
inductive Step (σ : Type)
  | cont (s : σ)
  | yield (s : σ)
  | done (s : σ)
  | fail (e : PErr) (s : σ)
deriving DecidableEq, Repr

/-- The state carried inside a `Step`. -/
def Step.state {σ : Type} : Step σ → σ
  | .cont s => s
  | .yield s => s
  | .done s => s
  | .fail _ s => s

/-- State of parser.py `Parser`: `closed` is `_closed`; `dead` records that
the `__parse__` generator has finished or raised (so `next` raises
`StopIteration`); `machineState` is the current entry of `_state_history`
(the optional debug history is not modelled); `buffer` is `_data_received`;
`events` is `_events_received`; `partialText` is `_partial_ascii_text`. -/
structure ParserState where
  closed : Bool
  dead : Bool
  machineState : MachineState
  buffer : List Nat
  events : List Event
  partialText : List Nat
  expectedHeaderSize : Int
  expectedTotalSize : Int
  partialMsg : Option (Operation × MsgFields)
deriving DecidableEq, Repr

/-- Fresh parser.py parser. -/
def Parser.init : ParserState :=
  ⟨false, false, .OP_START, [], [], [], 0, 0, none⟩

/-- One iteration of parser.py `Parser.__parse__` (lines 268-722): pop the
first byte, dispatch on the current state. `pending_data` of the source is
`rest`; error values carry `(next_byte, pending_data)` as in the source. -/
def Parser.step (s0 : ParserState) : Step ParserState :=
  if s0.closed then .done s0
  else match s0.buffer with
  | [] => .yield s0
  | b :: rest =>
    let s := { s0 with buffer := rest }
    match s.machineState with
    | .OP_START =>
      if b = 77 ∨ b = 109 then .cont { s with machineState := .OP_M }
      else if b = 72 ∨ b = 104 then .cont { s with machineState := .OP_H }
      else if b = 80 ∨ b = 112 then .cont { s with machineState := .OP_P }
      else if b = 73 ∨ b = 105 then .cont { s with machineState := .OP_I }
      else if b = 43 then .cont { s with machineState := .OP_PLUS }
      else if b = 45 then .cont { s with machineState := .OP_MINUS }
      else .fail (.protocolError b rest) s
    | .OP_H =>
      if b = 109 ∨ b = 77 then .cont { s with machineState := .OP_HM }
      else .fail (.protocolError b rest) s
    | .OP_HM =>
      if b = 115 ∨ b = 83 then .cont { s with machineState := .OP_HMS }
      else .fail (.protocolError b rest) s
    | .OP_HMS =>
      if b = 103 ∨ b = 71 then .cont { s with machineState := .OP_HMSG }
      else .fail (.protocolError b rest) s
    | .OP_HMSG =>
      if b = 32 then .cont { s with machineState := .OP_HMSG_SPC }
      else .fail (.protocolError b rest) s
    | .OP_HMSG_SPC =>
      if b = 13 then .fail (.protocolError b rest) s
      else if b = 10 then .fail (.protocolError b rest) s
      else if b = 32 then .fail (.protocolError b rest) s
      else .cont { s with partialText := s.partialText ++ [b],
                          machineState := .HMSG_ARG }
    | .HMSG_ARG =>
      if b = 13 then
        match hmsgArgs s.partialText with
        | some (subject, sid, replyTo, hs, ts) =>
          .cont { s with partialText := [],
                         expectedHeaderSize := hs,
                         expectedTotalSize := ts,
                         partialMsg := some (.HMSG, ⟨sid, subject, replyTo, [], []⟩),
                         machineState := .HMSG_END }
        | none => .fail (.protocolError b rest) { s with partialText := [] }
      else if b = 10 then .fail (.protocolError b rest) s
      else .cont { s with partialText := s.partialText ++ [b] }
    | .HMSG_END =>
      if b = 10 then .cont { s with machineState := .HMSG_PAYLOAD }
      else .fail (.protocolError b rest) s
    | .HMSG_PAYLOAD =>
      match s.partialMsg with
      | none => .fail .assertionError s
      | some (op, m) =>
        let pending := b :: rest
        if (pending.length : Int) ≥ s.expectedTotalSize + 2 then
          let header := pySliceTo pending s.expectedHeaderSize
          if pySliceFrom header (-4) ≠ [13, 10, 13, 10] then
            .fail (.protocolError b pending) { s with partialMsg := none }
          else
            .cont { s with
              partialMsg := none,
              buffer := pySliceFrom pending (s.expectedTotalSize + 2),
              events := s.events ++
                [.msg op { m with header := pySliceTo header (-4),
                                  payload := pySlice pending s.expectedHeaderSize
                                               s.expectedTotalSize }],
              machineState := .OP_START }
        else .yield { s with buffer := pending }
    | .OP_M =>
      if b = 115 ∨ b = 83 then .cont { s with machineState := .OP_MS }
      else .fail (.protocolError b rest) s
    | .OP_MS =>
      if b = 103 ∨ b = 71 then .cont { s with machineState := .OP_MSG }
      else .fail (.protocolError b rest) s
    | .OP_MSG =>
      if b = 32 then .cont { s with machineState := .OP_MSG_SPC }
      else .fail (.protocolError b rest) s
    | .OP_MSG_SPC =>
      if b = 13 then .fail (.protocolError b rest) s
      else if b = 10 then .fail (.protocolError b rest) s
      else if b = 32 then .fail (.protocolError b rest) s
      else .cont { s with partialText := s.partialText ++ [b],
                          machineState := .MSG_ARG }
    | .MSG_ARG =>
      -- the source sets MSG_END before examining the argument line
      if b = 13 then
        match msgArgs s.partialText with
        | some (subject, sid, replyTo, ts) =>
          .cont { s with partialText := [],
                         expectedTotalSize := ts,
                         partialMsg := some (.MSG, ⟨sid, subject, replyTo, [], []⟩),
                         machineState := .MSG_END }
        | none => .fail (.protocolError b rest)
                    { s with partialText := [], machineState := .MSG_END }
      else if b = 10 then .fail (.protocolError b rest) s
      else .cont { s with partialText := s.partialText ++ [b] }
    | .MSG_END =>
      if b = 10 then .cont { s with machineState := .MSG_PAYLOAD }
      else .fail (.protocolError b rest) s
    | .MSG_PAYLOAD =>
      match s.partialMsg with
      | none => .fail .assertionError s
      | some (op, m) =>
        let pending := b :: rest
        if (pending.length : Int) ≥ s.expectedTotalSize + 2 then
          .cont { s with
            partialMsg := none,
            buffer := pySliceFrom pending (s.expectedTotalSize + 2),
            events := s.events ++
              [.msg op { m with payload := pySliceTo pending s.expectedTotalSize }],
            machineState := .OP_START }
        else .yield { s with buffer := pending }
    | .OP_I =>
      if b = 110 ∨ b = 78 then .cont { s with machineState := .OP_IN }
      else .fail (.protocolError b rest) s
    | .OP_IN =>
      if b = 102 ∨ b = 70 then .cont { s with machineState := .OP_INF }
      else .fail (.protocolError b rest) s
    | .OP_INF =>
      if b = 111 ∨ b = 79 then .cont { s with machineState := .OP_INFO }
      else .fail (.protocolError b rest) s
    | .OP_INFO =>
      if b = 32 then .cont { s with machineState := .OP_INFO_SPC }
      else .fail (.protocolError b rest) s
    | .OP_INFO_SPC =>
      if b = 123 then .cont { s with machineState := .INFO_ARG,
                                     buffer := b :: rest }
      else .fail (.protocolError b rest) s
    | .INFO_ARG =>
      let pending := b :: rest
      match findCRLF pending with
      | some e =>
        .cont { s with buffer := pending.drop (e + 2),
                       events := s.events ++ [.info (pending.take e)],
                       machineState := .OP_START }
      | none => .yield { s with buffer := pending }
    | .OP_PLUS =>
      if b = 111 ∨ b = 79 then .cont { s with machineState := .OP_PLUS_O }
      else .fail (.protocolError b rest) s
    | .OP_PLUS_O =>
      if b = 107 ∨ b = 75 then .cont { s with machineState := .OP_PLUS_OK }
      else .fail (.protocolError b rest) s
    | .OP_PLUS_OK =>
      if b = 13 then .cont { s with machineState := .OP_END,
                                    events := s.events ++ [.simple .OK] }
      else .fail (.protocolError b rest) s
    | .OP_MINUS =>
      if b = 101 ∨ b = 69 then .cont { s with machineState := .OP_MINUS_E }
      else .fail (.protocolError b rest) s
    | .OP_MINUS_E =>
      if b = 114 ∨ b = 82 then .cont { s with machineState := .OP_MINUS_ER }
      else .fail (.protocolError b rest) s
    | .OP_MINUS_ER =>
      if b = 114 ∨ b = 82 then .cont { s with machineState := .OP_MINUS_ERR }
      else .fail (.protocolError b rest) s
    | .OP_MINUS_ERR =>
      if b = 32 then .cont { s with machineState := .OP_MINUS_ERR_SPC }
      else .fail (.protocolError b rest) s
    | .OP_MINUS_ERR_SPC =>
      if b = 13 then .fail (.protocolError b rest) s
      else if b = 10 then .fail (.protocolError b rest) s
      else .cont { s with partialText := s.partialText ++ [b],
                          machineState := .MINUS_ERR_ARG }
    | .MINUS_ERR_ARG =>
      if b = 13 then
        .cont { s with machineState := .OP_END,
                       events := s.events ++ [.err s.partialText],
                       partialText := [] }
      else if b = 10 then .fail (.protocolError b rest) s
      else .cont { s with partialText := s.partialText ++ [b] }
    | .OP_P =>
      if b = 105 ∨ b = 73 then .cont { s with machineState := .OP_PI }
      else if b = 111 ∨ b = 79 then .cont { s with machineState := .OP_PO }
      else .fail (.protocolError b rest) s
    | .OP_PI =>
      if b = 110 ∨ b = 78 then .cont { s with machineState := .OP_PIN }
      else .fail (.protocolError b rest) s
    | .OP_PIN =>
      if b = 103 ∨ b = 71 then .cont { s with machineState := .OP_PING }
      else .fail (.protocolError b rest) s
    | .OP_PING =>
      if b = 13 then .cont { s with machineState := .OP_END,
                                    events := s.events ++ [.simple .PING] }
      else .fail (.protocolError b rest) s
    | .OP_PO =>
      if b = 110 ∨ b = 78 then .cont { s with machineState := .OP_PON }
      else .fail (.protocolError b rest) s
    | .OP_PON =>
      if b = 103 ∨ b = 71 then .cont { s with machineState := .OP_PONG }
      else .fail (.protocolError b rest) s
    | .OP_PONG =>
      if b = 13 then .cont { s with machineState := .OP_END,
                                    events := s.events ++ [.simple .PONG] }
      else .fail (.protocolError b rest) s
    | .OP_END =>
      if b = 10 then .cont { s with machineState := .OP_START }
      else .fail (.protocolError b rest) s

/-- Iterate `Parser.step` until it yields, finishes or raises; a leftover
`.cont` signals exhausted fuel (never reached with the fuel chosen by
`Parser.parse` on the inputs of this file). -/
def Parser.run : Nat → ParserState → Step ParserState
  | 0, s => .cont s
  | fuel + 1, s =>
    match Parser.step s with
    | .cont s2 => Parser.run fuel s2
    | r => r

/-- parser.py `Parser.parse`: append the chunk, then `next(self.__loop__)`.
A finished generator raises a bare `StopIteration` out of `parse`. -/
def Parser.parse (s : ParserState) (data : List Nat) :
    Except PErr Unit × ParserState :=
  if s.dead then (.error .stopIteration, { s with buffer := s.buffer ++ data })
  else
    match Parser.run (2 * (s.buffer.length + data.length) + 4)
        { s with buffer := s.buffer ++ data } with
    | .yield s2 => (.ok (), s2)
    | .done s2 => (.error .stopIteration, { s2 with dead := true })
    | .fail e s2 => (.error e, { s2 with dead := true })
    | .cont s2 => (.error .fuelExhausted, { s2 with dead := true })

/-- parser.py `Parser.events`: pop and return the accumulated events. -/
def Parser.popEvents (s : ParserState) : List Event × ParserState :=
  (s.events, { s with events := [] })

/-- Feed a list of chunks through successive `parse` calls, collecting each
call's outcome. -/
def Parser.feedAll (s : ParserState) :
    List (List Nat) → List (Except PErr Unit) × ParserState
  | [] => ([], s)
  | c :: cs =>
    let r := Parser.parse s c
    let rs := Parser.feedAll r.2 cs
    (r.1 :: rs.1, rs.2)

example :
    (Parser.feedAll Parser.init [[43, 79, 75, 13, 10, 43, 79, 75, 13, 10]]).2.events
      = [.simple .OK, .simple .OK] := by decide

example :
    (Parser.feedAll Parser.init
      [[77, 83, 71, 32, 102, 111, 111, 46, 98, 97, 114, 32, 55, 32, 49, 49, 13,
        10, 104, 101, 108, 108, 111, 32, 119, 111, 114, 108, 100, 13, 10]]).2.events
      = [.msg .MSG ⟨7, [102, 111, 111, 46, 98, 97, 114], [],
          [104, 101, 108, 108, 111, 32, 119, 111, 114, 108, 100], []⟩] := by decide

/-- States of parser_300.py (module-level integers 0/1/2). -/
inductive MachineState300
  | AWAITING_CONTROL_LINE | AWAITING_MSG_PAYLOAD | AWAITING_HMSG_PAYLOAD
deriving DecidableEq, Repr

/-- State of parser_300.py `Parser300`; `expectedHeaderSize`,
`expectedTotalSize`, `partialMsg` and `machineState` are the generator-local
variables of `__parse__`, which persist across yields. -/
structure Parser300State where
  closed : Bool
  dead : Bool
  machineState : MachineState300
  buffer : List Nat
  events : List Event
  expectedHeaderSize : Int
  expectedTotalSize : Int
  partialMsg : Option (Operation × MsgFields)
deriving DecidableEq, Repr

/-- Fresh parser_300.py parser. -/
def Parser300.init : Parser300State :=
  ⟨false, false, .AWAITING_CONTROL_LINE, [], [], 0, 0, none⟩

/-- One iteration of parser_300.py `Parser300.__parse__` (lines 77-298).
Fast paths scan the whole buffer; note the source consumes
`end + expected_total_size + 5` bytes after a complete MSG/HMSG (one past the
frame), `end + 3` after INFO, `OK_OP_LEN + 1 = 6` after `+OK\r\n`, and
`expected_total_size + 3` after a suspended payload completes. -/
def Parser300.step (s : Parser300State) : Step Parser300State :=
  if s.closed then .done s
  else match s.buffer with
  | [] => .yield s
  | b :: _ =>
    match s.machineState with
    | .AWAITING_CONTROL_LINE =>
      if b = 77 then
        match findCRLF s.buffer with
        | none => .yield s
        | some e =>
          match msgArgs (pySlice s.buffer 4 (e : Int)) with
          | none => .fail .protocolError300 s
          | some (subject, sid, replyTo, ts) =>
            if ((s.buffer.drop (e + 2)).length : Int) ≥ ts + 2 then
              .cont { s with
                expectedTotalSize := ts,
                events := s.events ++
                  [.msg .MSG ⟨sid, subject, replyTo,
                    pySlice s.buffer ((e : Int) + 2) ((e : Int) + 2 + ts), []⟩],
                buffer := pySliceFrom s.buffer ((e : Int) + ts + 5) }
            else
              .yield { s with
                expectedTotalSize := ts,
                partialMsg := some (.MSG, ⟨sid, subject, replyTo, [], []⟩),
                machineState := .AWAITING_MSG_PAYLOAD,
                buffer := s.buffer.drop (e + 2) }
      else if b = 72 then
        match findCRLF s.buffer with
        | none => .yield s
        | some e =>
          match hmsgArgs (pySlice s.buffer 5 (e : Int)) with
          | none => .fail .protocolError300 s
          | some (subject, sid, replyTo, hs, ts) =>
            if ((s.buffer.drop (e + 2)).length : Int) ≥ ts + 2 then
              if pySlice s.buffer ((e : Int) - 2 + hs) ((e : Int) + 2 + hs)
                  ≠ [13, 10, 13, 10] then
                .fail .protocolError300
                  { s with expectedHeaderSize := hs, expectedTotalSize := ts }
              else
                .cont { s with
                  expectedHeaderSize := hs,
                  expectedTotalSize := ts,
                  events := s.events ++
                    [.msg .HMSG ⟨sid, subject, replyTo,
                      pySlice s.buffer ((e : Int) + 2 + hs) ((e : Int) + 2 + ts),
                      pySlice s.buffer ((e : Int) + 2) ((e : Int) - 2 + hs)⟩],
                  buffer := pySliceFrom s.buffer ((e : Int) + ts + 5) }
            else
              .yield { s with
                expectedHeaderSize := hs,
                expectedTotalSize := ts,
                partialMsg := some (.HMSG, ⟨sid, subject, replyTo, [], []⟩),
                machineState := .AWAITING_HMSG_PAYLOAD,
                buffer := s.buffer.drop (e + 2) }
      else if b = 80 then
        if s.buffer.length ≥ 6 then
          if s.buffer.take 6 = [80, 73, 78, 71, 13, 10] then
            .cont { s with events := s.events ++ [.simple .PING],
                           buffer := s.buffer.drop 6 }
          else if s.buffer.take 6 = [80, 79, 78, 71, 13, 10] then
            .cont { s with events := s.events ++ [.simple .PONG],
                           buffer := s.buffer.drop 6 }
          else .fail .protocolError300 s
        else .yield s
      else if b = 73 then
        match findCRLF s.buffer with
        | none => .yield s
        | some e =>
          .cont { s with events := s.events ++ [.info (pySlice s.buffer 5 (e : Int))],
                         buffer := s.buffer.drop (e + 3) }
      else if b = 43 then
        if s.buffer.length < 5 then .yield s
        else if s.buffer.take 5 ≠ [43, 79, 75, 13, 10] then .fail .protocolError300 s
        else .cont { s with buffer := s.buffer.drop 6,
                            events := s.events ++ [.simple .OK] }
      else if b = 45 then
        match findCRLF s.buffer with
        | none => .yield s
        | some e =>
          match pySlice s.buffer 5 (e : Int) with
          | [] => .fail .indexError s
          | m0 :: mrest =>
            if m0 ≠ 39 then .fail .protocolError300 s
            else if (m0 :: mrest).getLast? ≠ some 39 then .fail .protocolError300 s
            else
              .cont { s with
                events := s.events ++
                  [.err ((pySlice (m0 :: mrest) 1 (-1)).map lowerByte)],
                buffer := s.buffer.drop (e + 2) }
      else .fail .protocolError300 s
    | .AWAITING_HMSG_PAYLOAD =>
      match s.partialMsg with
      | none => .fail .assertionError s
      | some (op, m) =>
        if (s.buffer.length : Int) ≥ s.expectedTotalSize + 2 then
          if pySlice s.buffer (s.expectedHeaderSize - 4) s.expectedHeaderSize
              ≠ [13, 10, 13, 10] then
            .fail .protocolError300 s
          else
            .cont { s with
              events := s.events ++
                [.msg op { m with
                  header := pySliceTo s.buffer (s.expectedHeaderSize - 4),
                  payload := pySlice s.buffer s.expectedHeaderSize
                               s.expectedTotalSize }],
              buffer := pySliceFrom s.buffer (s.expectedTotalSize + 3),
              machineState := .AWAITING_CONTROL_LINE }
        else .yield s
    | .AWAITING_MSG_PAYLOAD =>
      match s.partialMsg with
      | none => .fail .assertionError s
      | some (op, m) =>
        if (s.buffer.length : Int) ≥ s.expectedTotalSize + 2 then
          .cont { s with
            events := s.events ++
              [.msg op { m with payload := pySliceTo s.buffer s.expectedTotalSize }],
            buffer := pySliceFrom s.buffer (s.expectedTotalSize + 3),
            machineState := .AWAITING_CONTROL_LINE }
        else .yield s

/-- Iterate `Parser300.step`; leftover `.cont` signals exhausted fuel. -/
def Parser300.run : Nat → Parser300State → Step Parser300State
  | 0, s => .cont s
  | fuel + 1, s =>
    match Parser300.step s with
    | .cont s2 => Parser300.run fuel s2
    | r => r

/-- parser_300.py `Parser300.parse`: extend the buffer, advance the
generator; a `StopIteration` (finished generator, e.g. after `close`) is
turned into `ParserClosedError`. -/
def Parser300.parse (s : Parser300State) (data : List Nat) :
    Except PErr Unit × Parser300State :=
  if s.dead then (.error .parserClosedError, { s with buffer := s.buffer ++ data })
  else
    match Parser300.run (2 * (s.buffer.length + data.length) + 4)
        { s with buffer := s.buffer ++ data } with
    | .yield s2 => (.ok (), s2)
    | .done s2 => (.error .parserClosedError, { s2 with dead := true })
    | .fail e s2 => (.error e, { s2 with dead := true })
    | .cont s2 => (.error .fuelExhausted, { s2 with dead := true })

/-- parser_300.py `Parser300.close`. -/
def Parser300.close (s : Parser300State) : Parser300State :=
  { s with closed := true }

/-- parser_300.py `Parser300.events_received`. -/
def Parser300.popEvents (s : Parser300State) : List Event × Parser300State :=
  (s.events, { s with events := [] })

/-- Feed chunks through successive `Parser300.parse` calls. -/
def Parser300.feedAll (s : Parser300State) :
    List (List Nat) → List (Except PErr Unit) × Parser300State
  | [] => ([], s)
  | c :: cs =>
    let r := Parser300.parse s c
    let rs := Parser300.feedAll r.2 cs
    (r.1 :: rs.1, rs.2)

example :
    (Parser300.feedAll Parser300.init
      [[43, 79, 75, 13, 10], [43, 79, 75, 13, 10]]).2.events
      = [.simple .OK, .simple .OK] := by decide

example :
    (Parser300.feedAll Parser300.init
      [[43, 79, 75, 13, 10, 43, 79, 75, 13, 10]]).1
      = [.error .protocolError300] := by decide

example :
    (Parser300.feedAll Parser300.init
      [[72, 77, 83, 71, 32, 102, 111, 111, 32, 57, 32, 49, 50, 32, 49, 55, 13,
        10, 72, 100, 114, 45, 65, 58, 32, 118, 13, 10, 13, 10, 104, 101, 108,
        108, 111, 13, 10]]).2.events
      = [.msg .HMSG ⟨9, [102, 111, 111], [], [104, 101, 108, 108, 111],
          [72, 100, 114, 45, 65, 58, 32, 118]⟩] := by decide

/-- State of parser_310.py `Parser310`; `cursor`, the expected sizes,
`partialMsg` and `machineState` are the generator-local variables of
`__parse__`. -/
structure Parser310State where
  closed : Bool
  dead : Bool
  machineState : MachineState
  cursor : Nat
  buffer : List Nat
  events : List Event
  expectedHeaderSize : Int
  expectedTotalSize : Int
  partialMsg : Option (Operation × MsgFields)
deriving DecidableEq, Repr

/-- Fresh parser_310.py parser. -/
def Parser310.init : Parser310State :=
  ⟨false, false, .OP_START, 0, [], [], 0, 0, none⟩

/-- One iteration of parser_310.py `Parser310.__parse__` (lines 57-602).
The loop reads `self._data_received[cursor]` right after checking only that
the buffer is non-empty, so a cursor at or past the end raises `IndexError`
(modelled by `.fail .indexError`). Note the source consumes
`expected_total_size + CRLF_SIZE + 1` bytes after a payload and
`end + CRLF_SIZE + 1` after an INFO line (one past the frame). -/
def Parser310.step (s : Parser310State) : Step Parser310State :=
  if s.closed then .done s
  else if s.buffer = [] then .yield s
  else if hc : s.buffer.length ≤ s.cursor then .fail .indexError s
  else
    let b := s.buffer.get ⟨s.cursor, by omega⟩
    match s.machineState with
    | .OP_START =>
      if b = 77 ∨ b = 109 then
        match findCRLF s.buffer with
        | some e =>
          match msgArgs (pySlice s.buffer ((s.cursor : Int) + 4) (e : Int)) with
          | none => .fail (.protocolError b s.buffer) s
          | some (subject, sid, replyTo, ts) =>
            .cont { s with expectedTotalSize := ts,
                           partialMsg := some (.MSG, ⟨sid, subject, replyTo, [], []⟩),
                           machineState := .MSG_END,
                           cursor := e + 1 }
        | none => .cont { s with machineState := .OP_M, cursor := s.cursor + 1 }
      else if b = 72 ∨ b = 104 then
        match findCRLF s.buffer with
        | some e =>
          match hmsgArgs (pySlice s.buffer ((s.cursor : Int) + 5) (e : Int)) with
          | none => .fail (.protocolError b s.buffer) s
          | some (subject, sid, replyTo, hs, ts) =>
            .cont { s with expectedHeaderSize := hs,
                           expectedTotalSize := ts,
                           partialMsg := some (.HMSG, ⟨sid, subject, replyTo, [], []⟩),
                           machineState := .HMSG_END,
                           cursor := e + 1 }
        | none => .cont { s with machineState := .OP_H, cursor := s.cursor + 1 }
      else if b = 80 ∨ b = 112 then
        .cont { s with machineState := .OP_P, cursor := s.cursor + 1 }
      else if b = 73 ∨ b = 105 then
        .cont { s with machineState := .OP_I, cursor := s.cursor + 1 }
      else if b = 43 then
        .cont { s with machineState := .OP_PLUS, cursor := s.cursor + 1 }
      else if b = 45 then
        .cont { s with machineState := .OP_MINUS, cursor := s.cursor + 1 }
      else .fail (.protocolError b s.buffer) s
    | .OP_H =>
      if b = 77 ∨ b = 109 then
        .cont { s with machineState := .OP_HM, cursor := s.cursor + 1 }
      else .fail (.protocolError b s.buffer) s
    | .OP_HM =>
      if b = 83 ∨ b = 115 then
        .cont { s with machineState := .OP_HMS, cursor := s.cursor + 1 }
      else .fail (.protocolError b s.buffer) s
    | .OP_HMS =>
      if b = 71 ∨ b = 103 then
        .cont { s with machineState := .OP_HMSG, cursor := s.cursor + 1 }
      else .fail (.protocolError b s.buffer) s
    | .OP_HMSG =>
      if b = 32 then
        .cont { s with machineState := .OP_HMSG_SPC, cursor := s.cursor + 1 }
      else .fail (.protocolError b s.buffer) s
    | .OP_HMSG_SPC =>
      if b = 13 ∨ b = 10 ∨ b = 32 then .fail (.protocolError b s.buffer) s
      else .cont { s with machineState := .HMSG_ARG,
                          buffer := s.buffer.drop s.cursor,
                          cursor := 1 }
    | .HMSG_ARG =>
      match findCRLF s.buffer with
      | some e =>
        match hmsgArgs (s.buffer.take e) with
        | none => .fail (.protocolError b s.buffer) s
        | some (subject, sid, replyTo, hs, ts) =>
          .cont { s with expectedHeaderSize := hs,
                         expectedTotalSize := ts,
                         partialMsg := some (.HMSG, ⟨sid, subject, replyTo, [], []⟩),
                         machineState := .HMSG_END,
                         cursor := e + 1 }
      | none => .yield s
    | .HMSG_END =>
      if b = 10 then
        .cont { s with machineState := .HMSG_PAYLOAD,
                       buffer := s.buffer.drop (s.cursor + 1),
                       cursor := 0 }
      else .fail (.protocolError b s.buffer) s
    | .HMSG_PAYLOAD =>
      match s.partialMsg with
      | none => .fail .assertionError s
      | some (op, m) =>
        if (s.buffer.length : Int) ≥ s.expectedTotalSize + 2 then
          let header := pySliceTo s.buffer s.expectedHeaderSize
          if pySliceFrom header (-4) ≠ [13, 10, 13, 10] then
            .fail (.protocolError b header) { s with partialMsg := none }
          else
            .cont { s with
              partialMsg := none,
              events := s.events ++
                [.msg op { m with header := pySliceTo header (-4),
                                  payload := pySlice s.buffer s.expectedHeaderSize
                                               s.expectedTotalSize }],
              buffer := pySliceFrom s.buffer (s.expectedTotalSize + 2 + 1),
              machineState := .OP_START,
              cursor := 0 }
        else .yield s
    | .OP_M =>
      if b = 83 ∨ b = 115 then
        .cont { s with machineState := .OP_MS, cursor := s.cursor + 1 }
      else .fail (.protocolError b s.buffer) s
    | .OP_MS =>
      if b = 71 ∨ b = 103 then
        .cont { s with machineState := .OP_MSG, cursor := s.cursor + 1 }
      else .fail (.protocolError b s.buffer) s
    | .OP_MSG =>
      if b = 32 then
        .cont { s with machineState := .OP_MSG_SPC, cursor := s.cursor + 1 }
      else .fail (.protocolError b s.buffer) s
    | .OP_MSG_SPC =>
      if b = 13 then .fail (.protocolError b s.buffer) s
      else if b = 10 then .fail (.protocolError b s.buffer) s
      else if b = 32 then .fail (.protocolError b s.buffer) s
      else .cont { s with machineState := .MSG_ARG,
                          buffer := s.buffer.drop s.cursor,
                          cursor := 1 }
    | .MSG_ARG =>
      match findCRLF s.buffer with
      | some e =>
        match msgArgs (s.buffer.take e) with
        | none => .fail (.protocolError b s.buffer) s
        | some (subject, sid, replyTo, ts) =>
          .cont { s with expectedTotalSize := ts,
                         partialMsg := some (.MSG, ⟨sid, subject, replyTo, [], []⟩),
                         machineState := .MSG_END,
                         cursor := e + 1 }
      | none => .yield s
    | .MSG_END =>
      if b = 10 then
        .cont { s with machineState := .MSG_PAYLOAD,
                       buffer := s.buffer.drop (s.cursor + 1),
                       cursor := 0 }
      else .fail (.protocolError b s.buffer) s
    | .MSG_PAYLOAD =>
      match s.partialMsg with
      | none => .fail .assertionError s
      | some (op, m) =>
        if (s.buffer.length : Int) ≥ s.expectedTotalSize + 2 then
          .cont { s with
            partialMsg := none,
            events := s.events ++
              [.msg op { m with payload := pySliceTo s.buffer s.expectedTotalSize }],
            buffer := pySliceFrom s.buffer (s.expectedTotalSize + 2 + 1),
            machineState := .OP_START,
            cursor := 0 }
        else .yield s
    | .OP_P =>
      if b = 73 ∨ b = 105 then
        .cont { s with machineState := .OP_PI, cursor := s.cursor + 1 }
      else if b = 79 ∨ b = 111 then
        .cont { s with machineState := .OP_PO, cursor := s.cursor + 1 }
      else .fail (.protocolError b s.buffer) s
    | .OP_PI =>
      if b = 78 ∨ b = 110 then
        .cont { s with machineState := .OP_PIN, cursor := s.cursor + 1 }
      else .fail (.protocolError b s.buffer) s
    | .OP_PIN =>
      if b = 71 ∨ b = 103 then
        .cont { s with machineState := .OP_PING, cursor := s.cursor + 1 }
      else .fail (.protocolError b s.buffer) s
    | .OP_PING =>
      if b = 13 then
        .cont { s with machineState := .OP_END,
                       events := s.events ++ [.simple .PING],
                       buffer := s.buffer.drop (s.cursor + 1),
                       cursor := 0 }
      else .fail (.protocolError b s.buffer) s
    | .OP_PO =>
      if b = 78 ∨ b = 110 then
        .cont { s with machineState := .OP_PON, cursor := s.cursor + 1 }
      else .fail (.protocolError b s.buffer) s
    | .OP_PON =>
      if b = 71 ∨ b = 103 then
        .cont { s with machineState := .OP_PONG, cursor := s.cursor + 1 }
      else .fail (.protocolError b s.buffer) s
    | .OP_PONG =>
      if b = 13 then
        .cont { s with machineState := .OP_END,
                       events := s.events ++ [.simple .PONG],
                       buffer := s.buffer.drop (s.cursor + 1),
                       cursor := 0 }
      else .fail (.protocolError b s.buffer) s
    | .OP_I =>
      if b = 78 ∨ b = 110 then
        .cont { s with machineState := .OP_IN, cursor := s.cursor + 1 }
      else .fail (.protocolError b s.buffer) s
    | .OP_IN =>
      if b = 70 ∨ b = 102 then
        .cont { s with machineState := .OP_INF, cursor := s.cursor + 1 }
      else .fail (.protocolError b s.buffer) s
    | .OP_INF =>
      if b = 79 ∨ b = 111 then
        .cont { s with machineState := .OP_INFO, cursor := s.cursor + 1 }
      else .fail (.protocolError b s.buffer) s
    | .OP_INFO =>
      if b = 32 then
        .cont { s with machineState := .OP_INFO_SPC, cursor := s.cursor + 1 }
      else .fail (.protocolError b s.buffer) s
    | .OP_INFO_SPC =>
      if b = 123 then
        .cont { s with machineState := .INFO_ARG,
                       buffer := s.buffer.drop s.cursor,
                       cursor := 1 }
      else .fail (.protocolError b s.buffer) s
    | .INFO_ARG =>
      match findCRLF s.buffer with
      | some e =>
        .cont { s with events := s.events ++ [.info (s.buffer.take e)],
                       buffer := s.buffer.drop (e + 2 + 1),
                       cursor := 0,
                       machineState := .OP_START }
      | none => .yield s
    | .OP_PLUS =>
      if b = 79 ∨ b = 111 then
        .cont { s with machineState := .OP_PLUS_O, cursor := s.cursor + 1 }
      else .fail (.protocolError b s.buffer) s
    | .OP_PLUS_O =>
      if b = 75 ∨ b = 107 then
        .cont { s with machineState := .OP_PLUS_OK, cursor := s.cursor + 1 }
      else .fail (.protocolError b s.buffer) s
    | .OP_PLUS_OK =>
      if b = 13 then
        .cont { s with machineState := .OP_END,
                       events := s.events ++ [.simple .OK],
                       buffer := s.buffer.drop (s.cursor + 1),
                       cursor := 0 }
      else .fail (.protocolError b s.buffer) s
    | .OP_MINUS =>
      if b = 69 ∨ b = 101 then
        .cont { s with machineState := .OP_MINUS_E, cursor := s.cursor + 1 }
      else .fail (.protocolError b s.buffer) s
    | .OP_MINUS_E =>
      if b = 82 ∨ b = 114 then
        .cont { s with machineState := .OP_MINUS_ER, cursor := s.cursor + 1 }
      else .fail (.protocolError b s.buffer) s
    | .OP_MINUS_ER =>
      if b = 82 ∨ b = 114 then
        .cont { s with machineState := .OP_MINUS_ERR, cursor := s.cursor + 1 }
      else .fail (.protocolError b s.buffer) s
    | .OP_MINUS_ERR =>
      if b = 32 then
        .cont { s with machineState := .OP_MINUS_ERR_SPC, cursor := s.cursor + 1 }
      else .fail (.protocolError b s.buffer) s
    | .OP_MINUS_ERR_SPC =>
      if b = 13 then .fail (.protocolError b s.buffer) s
      else if b = 10 then .fail (.protocolError b s.buffer) s
      else .cont { s with machineState := .MINUS_ERR_ARG,
                          buffer := s.buffer.drop s.cursor,
                          cursor := 1 }
    | .MINUS_ERR_ARG =>
      if b = 13 then
        .cont { s with machineState := .OP_END,
                       events := s.events ++ [.err (s.buffer.take s.cursor)],
                       buffer := s.buffer.drop (s.cursor + 1),
                       cursor := 0 }
      else if b = 10 then .fail (.protocolError b s.buffer) s
      else .cont { s with cursor := s.cursor + 1 }
    | .OP_END =>
      if b = 10 then
        .cont { s with machineState := .OP_START,
                       buffer := s.buffer.drop (s.cursor + 1),
                       cursor := 0 }
      else .fail (.protocolError b s.buffer) s

/-- Iterate `Parser310.step`; leftover `.cont` signals exhausted fuel. -/
def Parser310.run : Nat → Parser310State → Step Parser310State
  | 0, s => .cont s
  | fuel + 1, s =>
    match Parser310.step s with
    | .cont s2 => Parser310.run fuel s2
    | r => r

/-- parser_310.py `Parser310.parse`: extend the buffer, advance the
generator; nothing is caught, so a finished generator surfaces as a bare
`StopIteration`. -/
def Parser310.parse (s : Parser310State) (data : List Nat) :
    Except PErr Unit × Parser310State :=
  if s.dead then (.error .stopIteration, { s with buffer := s.buffer ++ data })
  else
    match Parser310.run (3 * (s.buffer.length + data.length) + 8)
        { s with buffer := s.buffer ++ data } with
    | .yield s2 => (.ok (), s2)
    | .done s2 => (.error .stopIteration, { s2 with dead := true })
    | .fail e s2 => (.error e, { s2 with dead := true })
    | .cont s2 => (.error .fuelExhausted, { s2 with dead := true })

/-- parser_310.py `Parser310.events_received`. -/
def Parser310.popEvents (s : Parser310State) : List Event × Parser310State :=
  (s.events, { s with events := [] })

/-- Feed chunks through successive `Parser310.parse` calls. -/
def Parser310.feedAll (s : Parser310State) :
    List (List Nat) → List (Except PErr Unit) × Parser310State
  | [] => ([], s)
  | c :: cs =>
    let r := Parser310.parse s c
    let rs := Parser310.feedAll r.2 cs
    (r.1 :: rs.1, rs.2)

example :
    (Parser310.feedAll Parser310.init
      [[43, 79, 75, 13, 10, 45, 69, 82, 82, 32, 39, 85, 110, 107, 110, 111,
        119, 110, 32, 80, 114, 111, 116, 111, 99, 111, 108, 39, 13, 10]]).2.events
      = [.simple .OK, .err [39, 85, 110, 107, 110, 111, 119, 110, 32, 80, 114,
          111, 116, 111, 99, 111, 108, 39]] := by decide

example :
    (Parser310.feedAll Parser310.init [[80]]).1 = [.error .indexError] := by decide

example :
    (Parser310.feedAll Parser310.init
      [[72, 77, 83, 71, 32, 102, 111, 111, 32, 57, 32, 49, 50, 32, 49, 55, 13,
        10, 72, 100, 114, 45, 65, 58, 32, 118, 13, 10, 13, 10, 104, 101, 108,
        108, 111, 13, 10]]).2.events
      = [.msg .HMSG ⟨9, [102, 111, 111], [], [104, 101, 108, 108, 111],
          [72, 100, 114, 45, 65, 58, 32, 118]⟩] := by decide

lemma sliceIdx_le (n : Nat) (i : Int) : sliceIdx n i ≤ n := by
  unfold sliceIdx
  split
  · omega
  · exact Nat.min_le_right _ _

lemma length_pySliceTo (l : List Nat) (j : Int) :
    (pySliceTo l j).length = sliceIdx l.length j := by
  simp [pySliceTo, Nat.min_eq_left (sliceIdx_le _ _)]

lemma length_pySliceFrom (l : List Nat) (i : Int) :
    (pySliceFrom l i).length = l.length - sliceIdx l.length i := by
  simp [pySliceFrom]

lemma length_pySlice (l : List Nat) (i j : Int) :
    (pySlice l i j).length = sliceIdx l.length j - sliceIdx l.length i := by
  simp [pySlice, Nat.min_eq_left (sliceIdx_le _ _)]

lemma sliceIdx_of_nonneg (n : Nat) (i : Int) (h0 : 0 ≤ i) (h1 : i ≤ (n : Int)) :
    sliceIdx n i = i.toNat := by
  unfold sliceIdx
  rw [if_neg (by omega)]
  have : i.toNat ≤ n := by omega
  omega

lemma sliceIdx_neg (n : Nat) (i : Int) (h0 : i < 0) :
    sliceIdx n i = ((n : Int) + i).toNat := by
  unfold sliceIdx
  rw [if_pos h0]

lemma pbRunClosed (f : Nat) (s : ParserState) (h : s.closed = true)
    (hf : 0 < f) : Parser.run f s = .done s := by
  have hstep : Parser.step s = .done s := by
    unfold Parser.step
    rw [if_pos h]
  cases f with
  | zero => omega
  | succ f2 =>
    unfold Parser.run
    rw [hstep]

lemma p300RunClosed (f : Nat) (s : Parser300State) (h : s.closed = true)
    (hf : 0 < f) : Parser300.run f s = .done s := by
  have hstep : Parser300.step s = .done s := by
    unfold Parser300.step
    rw [if_pos h]
  cases f with
  | zero => omega
  | succ f2 =>
    unfold Parser300.run
    rw [hstep]

lemma p310RunClosed (f : Nat) (s : Parser310State) (h : s.closed = true)
    (hf : 0 < f) : Parser310.run f s = .done s := by
  have hstep : Parser310.step s = .done s := by
    unfold Parser310.step
    rw [if_pos h]
  cases f with
  | zero => omega
  | succ f2 =>
    unfold Parser310.run
    rw [hstep]


set_option maxHeartbeats 2000000 in
lemma pbStepEvents (s : ParserState) :
    ∃ t, (Parser.step s).state.events = s.events ++ t := by
  cases hcl : s.closed with
  | true => exact ⟨[], by simp [Parser.step, hcl, Step.state]⟩
  | false =>
    cases hb : s.buffer with
    | nil => exact ⟨[], by simp [Parser.step, hcl, hb, Step.state]⟩
    | cons b rest =>
      cases hms : s.machineState
      all_goals simp only [Parser.step, hcl, hb, hms, Bool.false_eq_true,
        if_false]
      all_goals repeat' split
      all_goals simp only [Step.state]
      all_goals first
        | exact ⟨_, rfl⟩
        | exact ⟨[], by simp⟩

set_option maxHeartbeats 2000000 in
lemma p300StepEvents (s : Parser300State) :
    ∃ t, (Parser300.step s).state.events = s.events ++ t := by
  cases hcl : s.closed with
  | true => exact ⟨[], by simp [Parser300.step, hcl, Step.state]⟩
  | false =>
    cases hb : s.buffer with
    | nil => exact ⟨[], by simp [Parser300.step, hcl, hb, Step.state]⟩
    | cons b rest =>
      cases hms : s.machineState
      all_goals simp only [Parser300.step, hcl, hb, hms, Bool.false_eq_true,
        if_false]
      all_goals repeat' split
      all_goals simp only [Step.state]
      all_goals first
        | exact ⟨_, rfl⟩
        | exact ⟨[], by simp⟩

lemma pbRunEvents (fuel : Nat) (s : ParserState) :
    ∃ t, (Parser.run fuel s).state.events = s.events ++ t := by
  induction fuel generalizing s with
  | zero => exact ⟨[], by simp [Parser.run, Step.state]⟩
  | succ f ih =>
    obtain ⟨t1, h1⟩ := pbStepEvents s
    unfold Parser.run
    cases hstep : Parser.step s with
    | cont s2 =>
      rw [hstep] at h1
      simp only [Step.state] at h1
      obtain ⟨t2, h2⟩ := ih s2
      exact ⟨t1 ++ t2, by rw [h2, h1, List.append_assoc]⟩
    | yield s2 => rw [hstep] at h1; exact ⟨t1, h1⟩
    | done s2 => rw [hstep] at h1; exact ⟨t1, h1⟩
    | fail e s2 => rw [hstep] at h1; exact ⟨t1, h1⟩

lemma p300RunEvents (fuel : Nat) (s : Parser300State) :
    ∃ t, (Parser300.run fuel s).state.events = s.events ++ t := by
  induction fuel generalizing s with
  | zero => exact ⟨[], by simp [Parser300.run, Step.state]⟩
  | succ f ih =>
    obtain ⟨t1, h1⟩ := p300StepEvents s
    unfold Parser300.run
    cases hstep : Parser300.step s with
    | cont s2 =>
      rw [hstep] at h1
      simp only [Step.state] at h1
      obtain ⟨t2, h2⟩ := ih s2
      exact ⟨t1 ++ t2, by rw [h2, h1, List.append_assoc]⟩
    | yield s2 => rw [hstep] at h1; exact ⟨t1, h1⟩
    | done s2 => rw [hstep] at h1; exact ⟨t1, h1⟩
    | fail e s2 => rw [hstep] at h1; exact ⟨t1, h1⟩

lemma pbParseEvents (s : ParserState) (c : List Nat) :
    ∃ t, ((Parser.parse s c).2).events = s.events ++ t := by
  unfold Parser.parse
  by_cases hd : s.dead = true
  · exact ⟨[], by simp [hd]⟩
  · rw [if_neg hd]
    obtain ⟨t, h⟩ :=
      pbRunEvents (2 * (s.buffer.length + c.length) + 4)
        { s with buffer := s.buffer ++ c }
    refine ⟨t, ?_⟩
    simp only at h
    cases hr : Parser.run (2 * (s.buffer.length + c.length) + 4)
        { s with buffer := s.buffer ++ c } with
    | cont s2 => rw [hr] at h; simpa using h
    | yield s2 => rw [hr] at h; simpa using h
    | done s2 => rw [hr] at h; simpa using h
    | fail e s2 => rw [hr] at h; simpa using h

lemma p300ParseEvents (s : Parser300State) (c : List Nat) :
    ∃ t, ((Parser300.parse s c).2).events = s.events ++ t := by
  unfold Parser300.parse
  by_cases hd : s.dead = true
  · exact ⟨[], by simp [hd]⟩
  · rw [if_neg hd]
    obtain ⟨t, h⟩ :=
      p300RunEvents (2 * (s.buffer.length + c.length) + 4)
        { s with buffer := s.buffer ++ c }
    refine ⟨t, ?_⟩
    simp only at h
    cases hr : Parser300.run (2 * (s.buffer.length + c.length) + 4)
        { s with buffer := s.buffer ++ c } with
    | cont s2 => rw [hr] at h; simpa using h
    | yield s2 => rw [hr] at h; simpa using h
    | done s2 => rw [hr] at h; simpa using h
    | fail e s2 => rw [hr] at h; simpa using h

lemma pbParseDead (s : ParserState) (c : List Nat) (h : s.dead = true) :
    (Parser.parse s c).1 = .error .stopIteration := by
  simp [Parser.parse, h]

lemma p300ParseDead (s : Parser300State) (c : List Nat) (h : s.dead = true) :
    (Parser300.parse s c).1 = .error .parserClosedError := by
  simp [Parser300.parse, h]

lemma p310ParseDead (s : Parser310State) (c : List Nat) (h : s.dead = true) :
    (Parser310.parse s c).1 = .error .stopIteration := by
  simp [Parser310.parse, h]

lemma pbParseErrorDead (s : ParserState) (c : List Nat) (e : PErr)
    (h : (Parser.parse s c).1 = .error e) : (Parser.parse s c).2.dead = true := by
  unfold Parser.parse at h ⊢
  by_cases hd : s.dead = true
  · rw [if_pos hd] at h ⊢
    simpa using hd
  · rw [if_neg hd] at h ⊢
    cases hr : Parser.run (2 * (s.buffer.length + c.length) + 4)
        { s with buffer := s.buffer ++ c } with
    | cont s2 => simp
    | yield s2 => rw [hr] at h; simp at h
    | done s2 => simp
    | fail e2 s2 => simp

lemma p300ParseErrorDead (s : Parser300State) (c : List Nat) (e : PErr)
    (h : (Parser300.parse s c).1 = .error e) :
    (Parser300.parse s c).2.dead = true := by
  unfold Parser300.parse at h ⊢
  by_cases hd : s.dead = true
  · rw [if_pos hd] at h ⊢
    simpa using hd
  · rw [if_neg hd] at h ⊢
    cases hr : Parser300.run (2 * (s.buffer.length + c.length) + 4)
        { s with buffer := s.buffer ++ c } with
    | cont s2 => simp
    | yield s2 => rw [hr] at h; simp at h
    | done s2 => simp
    | fail e2 s2 => simp

/-- Wire bytes of the frame `+OK\r\n`. -/
def okFrame : List Nat := [43, 79, 75, 13, 10]

/-- Wire bytes of the frame `PING\r\n`. -/
def pingFrame : List Nat := [80, 73, 78, 71, 13, 10]

/-- Wire bytes of `-ERR 'Unknown Protocol'\r\n`. -/
def errFrameUP : List Nat :=
  [45, 69, 82, 82, 32, 39, 85, 110, 107, 110, 111, 119, 110, 32, 80, 114,
   111, 116, 111, 99, 111, 108, 39, 13, 10]

/-- The byte text `'Unknown Protocol'` (quotes included). -/
def unknownProtoQuoted : List Nat :=
  [39, 85, 110, 107, 110, 111, 119, 110, 32, 80, 114, 111, 116, 111, 99,
   111, 108, 39]

/-- The byte text `unknown protocol`. -/
def unknownProtoLower : List Nat :=
  [117, 110, 107, 110, 111, 119, 110, 32, 112, 114, 111, 116, 111, 99, 111, 108]

/-- Wire bytes of `PING\r\nPONG\r\n`. -/
def pingPongInput : List Nat :=
  [80, 73, 78, 71, 13, 10, 80, 79, 78, 71, 13, 10]

/-- Wire bytes of `MSG foo.bar 7 11\r\nhello world\r\n`. -/
def msgScenario3 : List Nat :=
  [77, 83, 71, 32, 102, 111, 111, 46, 98, 97, 114, 32, 55, 32, 49, 49, 13,
   10, 104, 101, 108, 108, 111, 32, 119, 111, 114, 108, 100, 13, 10]

/-- Wire bytes of `MSG foo 1 reply.x 3\r\nabc\r\n`. -/
def msgScenario4 : List Nat :=
  [77, 83, 71, 32, 102, 111, 111, 32, 49, 32, 114, 101, 112, 108, 121, 46,
   120, 32, 51, 13, 10, 97, 98, 99, 13, 10]

/-- Wire bytes of `HMSG foo 9 12 17\r\nHdr-A: v\r\n\r\nhello\r\n`
(header_size 12, total_size 17). -/
def hmsgScenario : List Nat :=
  [72, 77, 83, 71, 32, 102, 111, 111, 32, 57, 32, 49, 50, 32, 49, 55, 13,
   10, 72, 100, 114, 45, 65, 58, 32, 118, 13, 10, 13, 10, 104, 101, 108,
   108, 111, 13, 10]

/-- Wire bytes of `MSG a 1 2\r\n\r\n\r\n+OK\r\n`: a MSG whose 2-byte payload
is itself a CRLF, followed by a well-formed `+OK` frame. -/
def msgCrlfPayloadInput : List Nat :=
  [77, 83, 71, 32, 97, 32, 49, 32, 50, 13, 10, 13, 10, 13, 10, 43, 79, 75,
   13, 10]

/-- Wire bytes of `MSG a 1 2\r\nxy\r\n`. -/
def msgUpper : List Nat :=
  [77, 83, 71, 32, 97, 32, 49, 32, 50, 13, 10, 120, 121, 13, 10]

/-- Wire bytes of `msg a 1 2\r\nxy\r\n`. -/
def msgLower : List Nat :=
  [109, 115, 103, 32, 97, 32, 49, 32, 50, 13, 10, 120, 121, 13, 10]

/-- Wire bytes of `MsG a 1 2\r\nxy\r\n`. -/
def msgMixed : List Nat :=
  [77, 115, 71, 32, 97, 32, 49, 32, 50, 13, 10, 120, 121, 13, 10]

/-- Wire bytes of `-ERR 'A'\r\n`. -/
def errFrameA : List Nat := [45, 69, 82, 82, 32, 39, 65, 39, 13, 10]

/-- The single MSG event produced by the `MSG a 1 2\r\nxy\r\n` frame. -/
def msgXyEvent : Event :=
  .msg .MSG ⟨1, [97], [], [120, 121], []⟩

/-- C1. The claim states chunk-invariance for all three implementations; the
code of parser_300.py and parser_310.py violates it, parser.py satisfies it
on the exhibited partitionings. Parser300 consumes 6 bytes for `+OK\r\n`
(OK_OP_LEN + 1), so `+OK\r\n+OK\r\n` in one chunk loses the second frame's
`+` and raises ProtocolError, while the same stream split at the frame
boundary (or fed per byte) yields `[OK, OK]`; Parser310 raises `IndexError`
when a chunk ends in the middle of a verb, so feeding `PING\r\n` one byte at
a time crashes on the first byte while the single chunk parses. -/
theorem c1_chunk_invariance_code_bug :
    (Parser.feedAll Parser.init [okFrame ++ okFrame]).1 = [.ok ()]
  ∧ (Parser.feedAll Parser.init [okFrame ++ okFrame]).2.events
      = [.simple .OK, .simple .OK]
  ∧ (Parser.feedAll Parser.init
      [[43], [79], [75], [13], [10], [43], [79], [75], [13], [10]]).2.events
      = [.simple .OK, .simple .OK]
  ∧ (Parser300.feedAll Parser300.init [okFrame, okFrame]).1 = [.ok (), .ok ()]
  ∧ (Parser300.feedAll Parser300.init [okFrame, okFrame]).2.events
      = [.simple .OK, .simple .OK]
  ∧ (Parser300.feedAll Parser300.init [okFrame ++ okFrame]).1
      = [.error .protocolError300]
  ∧ (Parser300.feedAll Parser300.init [okFrame ++ okFrame]).2.events
      = [.simple .OK]
  ∧ (Parser310.feedAll Parser310.init [pingFrame]).1 = [.ok ()]
  ∧ (Parser310.feedAll Parser310.init [pingFrame]).2.events = [.simple .PING]
  ∧ (Parser310.feedAll Parser310.init
      [[80], [73], [78], [71], [13], [10]]).1
      = [.error .indexError, .error .stopIteration, .error .stopIteration,
         .error .stopIteration, .error .stopIteration, .error .stopIteration]
  := by decide

/-- C2 counterexample. The per-byte parser and Parser300 do not emit the same
events: on `-ERR 'A'\r\n` parser.py emits the message verbatim with quotes,
parser_300.py strips the quotes and lower-cases. -/
theorem c2_equivalence_counterexample :
    (Parser.feedAll Parser.init [errFrameA]).2.events = [.err [39, 65, 39]]
  ∧ (Parser300.feedAll Parser300.init [errFrameA]).2.events = [.err [97]]
  ∧ (Parser.feedAll Parser.init [errFrameA]).2.events
      ≠ (Parser300.feedAll Parser300.init [errFrameA]).2.events
  := by decide

/-- C2 amended. parser.py and parser_310.py emit identical event sequences on
the spec's end-to-end scenarios fed as single chunks; parser_300.py agrees on
the PING/PONG, MSG and HMSG scenarios but rejects the `+OK\r\n-ERR ...`
stream (extra byte consumed after `+OK`), emits ERR messages quote-stripped
and lower-cased, and rejects lowercase verbs, so the three implementations do
not accept the same language nor emit the same events. -/
theorem c2_equivalence_amended :
    (Parser.feedAll Parser.init [pingPongInput]).2.events
      = (Parser310.feedAll Parser310.init [pingPongInput]).2.events
  ∧ (Parser.feedAll Parser.init [okFrame ++ errFrameUP]).2.events
      = (Parser310.feedAll Parser310.init [okFrame ++ errFrameUP]).2.events
  ∧ (Parser.feedAll Parser.init [msgScenario3]).2.events
      = (Parser310.feedAll Parser310.init [msgScenario3]).2.events
  ∧ (Parser.feedAll Parser.init [msgScenario4]).2.events
      = (Parser310.feedAll Parser310.init [msgScenario4]).2.events
  ∧ (Parser.feedAll Parser.init [hmsgScenario]).2.events
      = (Parser310.feedAll Parser310.init [hmsgScenario]).2.events
  ∧ (Parser300.feedAll Parser300.init [pingPongInput]).2.events
      = (Parser.feedAll Parser.init [pingPongInput]).2.events
  ∧ (Parser300.feedAll Parser300.init [msgScenario3]).2.events
      = (Parser.feedAll Parser.init [msgScenario3]).2.events
  ∧ (Parser300.feedAll Parser300.init [msgScenario4]).2.events
      = (Parser.feedAll Parser.init [msgScenario4]).2.events
  ∧ (Parser300.feedAll Parser300.init [hmsgScenario]).2.events
      = (Parser.feedAll Parser.init [hmsgScenario]).2.events
  ∧ (Parser300.feedAll Parser300.init [okFrame ++ errFrameUP]).1
      = [.error .protocolError300]
  ∧ (Parser300.feedAll Parser300.init [errFrameUP]).2.events
      = [.err unknownProtoLower]
  ∧ (Parser300.feedAll Parser300.init [msgLower]).1 = [.error .protocolError300]
  ∧ (Parser.feedAll Parser.init [msgLower]).1 = [.ok ()]
  := by decide

/-- C3. Binary safety of the payload holds in all three implementations
(the emitted payload is the CRLF bytes, bit for bit), but the second half of
the claim — the frame following the MSG's trailing CRLF is parsed correctly —
fails for parser_300.py and parser_310.py: both consume one byte past the
frame (`end + expected_total_size + 5` resp. `expected_total_size +
CRLF_SIZE + 1`), eating the `+` of the following `+OK\r\n` and raising
ProtocolError, while parser.py yields `[MSG, OK]`. -/
theorem c3_binary_safety_code_bug :
    (Parser.feedAll Parser.init [msgCrlfPayloadInput]).1 = [.ok ()]
  ∧ (Parser.feedAll Parser.init [msgCrlfPayloadInput]).2.events
      = [.msg .MSG ⟨1, [97], [], [13, 10], []⟩, .simple .OK]
  ∧ (Parser300.feedAll Parser300.init [msgCrlfPayloadInput]).1
      = [.error .protocolError300]
  ∧ (Parser300.feedAll Parser300.init [msgCrlfPayloadInput]).2.events
      = [.msg .MSG ⟨1, [97], [], [13, 10], []⟩]
  ∧ (Parser310.feedAll Parser310.init [msgCrlfPayloadInput]).1
      = [.error (.protocolError 79 [79, 75, 13, 10])]
  ∧ (Parser310.feedAll Parser310.init [msgCrlfPayloadInput]).2.events
      = [.msg .MSG ⟨1, [97], [], [13, 10], []⟩]
  := by decide

/-- C5 counterexample. The claim asserts that `+OK\r\n-ERR 'Unknown
Protocol'\r\n` produces `[OK, ERR{...}]` in each implementation; parser_300.py
instead raises ProtocolError after the OK (it consumes 6 bytes for `+OK\r\n`,
losing the `-`). -/
theorem c5_err_passthrough_counterexample :
    (Parser300.feedAll Parser300.init [okFrame ++ errFrameUP]).1
      = [.error .protocolError300]
  ∧ (Parser300.feedAll Parser300.init [okFrame ++ errFrameUP]).2.events
      = [.simple .OK]
  := by decide

/-- C5 amended. parser.py and parser_310.py produce exactly
`[OK, ERR{"'Unknown Protocol'"}]` for the input, keeping the quotes and case
verbatim; parser_300.py rejects this exact stream, and fed the ERR frame
alone it requires surrounding single quotes, strips them and lower-cases the
message. -/
theorem c5_err_passthrough_amended :
    (Parser.feedAll Parser.init [okFrame ++ errFrameUP]).1 = [.ok ()]
  ∧ (Parser.feedAll Parser.init [okFrame ++ errFrameUP]).2.events
      = [.simple .OK, .err unknownProtoQuoted]
  ∧ (Parser310.feedAll Parser310.init [okFrame ++ errFrameUP]).1 = [.ok ()]
  ∧ (Parser310.feedAll Parser310.init [okFrame ++ errFrameUP]).2.events
      = [.simple .OK, .err unknownProtoQuoted]
  ∧ (Parser300.feedAll Parser300.init [okFrame ++ errFrameUP]).1
      = [.error .protocolError300]
  ∧ (Parser300.feedAll Parser300.init [errFrameUP]).2.events
      = [.err unknownProtoLower]
  := by decide

/-- C6 counterexample. parser_300.py only accepts the uppercase initial verb
byte: the frame `msg a 1 2\r\nxy\r\n` raises ProtocolError with no event,
against the claim that case variants are accepted by all three
implementations. -/
theorem c6_case_insensitive_counterexample :
    (Parser300.feedAll Parser300.init [msgLower]).1 = [.error .protocolError300]
  ∧ (Parser300.feedAll Parser300.init [msgLower]).2.events = []
  := by decide

/-- C6 amended. parser.py and parser_310.py accept `MSG`, `msg` and `MsG`
alike, emitting the identical event with subject and payload bytes
unchanged; parser_300.py accepts the uppercase form (same event) but raises
ProtocolError on the lowercase variant. -/
theorem c6_case_insensitive_amended :
    (Parser.feedAll Parser.init [msgUpper]).2.events = [msgXyEvent]
  ∧ (Parser.feedAll Parser.init [msgLower]).2.events = [msgXyEvent]
  ∧ (Parser.feedAll Parser.init [msgMixed]).2.events = [msgXyEvent]
  ∧ (Parser310.feedAll Parser310.init [msgUpper]).2.events = [msgXyEvent]
  ∧ (Parser310.feedAll Parser310.init [msgLower]).2.events = [msgXyEvent]
  ∧ (Parser310.feedAll Parser310.init [msgMixed]).2.events = [msgXyEvent]
  ∧ (Parser300.feedAll Parser300.init [msgUpper]).2.events = [msgXyEvent]
  ∧ (Parser300.feedAll Parser300.init [msgLower]).1 = [.error .protocolError300]
  := by decide

/-- C7. The claim describes the intended decoding (`"2.10.1"` giving
patch = 1); the source's `parse_version` assigns `patch` only when more than
3 dot-tokens exist, so `"2.10.1"` decodes to `patch = 0` — the off-by-one
acknowledged in the spec's design notes. -/
theorem c7_parse_version_off_by_one :
    parse_version [50, 46, 49, 48, 46, 49] = some ⟨2, 10, 0, []⟩
  ∧ (⟨2, 10, 0, []⟩ : Version) ≠ ⟨2, 10, 1, []⟩
  := by decide

lemma pbParseClosed (s : ParserState) (c : List Nat) (h : s.closed = true) :
    (Parser.parse s c).1 = .error .stopIteration := by
  unfold Parser.parse
  by_cases hd : s.dead = true
  · rw [if_pos hd]
  · rw [if_neg hd]
    have hr := pbRunClosed (2 * (s.buffer.length + c.length) + 4)
        { s with buffer := s.buffer ++ c } h (by omega)
    rw [hr]

lemma p300ParseClosed (s : Parser300State) (c : List Nat)
    (h : s.closed = true) :
    (Parser300.parse s c).1 = .error .parserClosedError := by
  unfold Parser300.parse
  by_cases hd : s.dead = true
  · rw [if_pos hd]
  · rw [if_neg hd]
    have hr := p300RunClosed (2 * (s.buffer.length + c.length) + 4)
        { s with buffer := s.buffer ++ c } h (by omega)
    rw [hr]

lemma p310ParseClosed (s : Parser310State) (c : List Nat)
    (h : s.closed = true) :
    (Parser310.parse s c).1 = .error .stopIteration := by
  unfold Parser310.parse
  by_cases hd : s.dead = true
  · rw [if_pos hd]
  · rw [if_neg hd]
    have hr := p310RunClosed (3 * (s.buffer.length + c.length) + 8)
        { s with buffer := s.buffer ++ c } h (by omega)
    rw [hr]

/-- C8 counterexample. parser.py's `Parser` and parser_310.py's `Parser310`
have no `close()` method; with their terminal flag set, a `parse` call raises
a bare `StopIteration` (the generator exits), not the `ParserClosed` the
claim requires of every implementation. -/
theorem c8_close_counterexample :
    (Parser.parse { Parser.init with closed := true } okFrame).1
      = .error .stopIteration
  ∧ (Parser310.parse { Parser310.init with closed := true } okFrame).1
      = .error .stopIteration
  ∧ PErr.stopIteration ≠ PErr.parserClosedError
  := by decide

/-- C8 amended. Only parser_300.py offers `close()`; it is idempotent and
every `parse` after it reports ParserClosedError. parser.py and parser_310.py
merely carry the `_closed` flag: once it is set, `parse` fails with a bare
`StopIteration` instead of ParserClosed. -/
theorem c8_close_semantics_amended :
    (∀ s : Parser300State, Parser300.close (Parser300.close s) = Parser300.close s)
  ∧ (∀ (s : Parser300State) (c : List Nat),
      (Parser300.parse (Parser300.close s) c).1 = .error .parserClosedError)
  ∧ (∀ (s : ParserState) (c : List Nat), s.closed = true →
      (Parser.parse s c).1 = .error .stopIteration)
  ∧ (∀ (s : Parser310State) (c : List Nat), s.closed = true →
      (Parser310.parse s c).1 = .error .stopIteration) := by
  refine ⟨fun s => rfl, fun s c => ?_, fun s c h => pbParseClosed s c h,
    fun s c h => p310ParseClosed s c h⟩
  exact p300ParseClosed (Parser300.close s) c rfl

theorem c8_close_semantics_amended_witness :
    (Parser.parse { Parser.init with closed := true } [43]).1
        = .error .stopIteration
    ∧ (Parser310.parse { Parser310.init with closed := true } [43]).1
        = .error .stopIteration :=
  ⟨c8_close_semantics_amended.2.2.1 { Parser.init with closed := true } [43] rfl,
   c8_close_semantics_amended.2.2.2 { Parser310.init with closed := true } [43] rfl⟩

/-- C9. After a `parse` call fails with a ProtocolError, the generator is
dead: every later `parse` on the same parser also fails (`StopIteration` for
parser.py, `ParserClosedError` for parser_300.py), and the events that were
enqueued before the error are still returned by the drain operation
(the queue only ever grows during a call, and an error does not clear it). -/
theorem c9_error_latching :
    (∀ (s : ParserState) (c : List Nat) (b : Nat) (ctx : List Nat),
      (Parser.parse s c).1 = .error (.protocolError b ctx) →
        (Parser.parse s c).2.dead = true
        ∧ (∀ c2, (Parser.parse (Parser.parse s c).2 c2).1 = .error .stopIteration)
        ∧ (Parser.popEvents (Parser.parse s c).2).1 = ((Parser.parse s c).2).events
        ∧ ∃ t, ((Parser.parse s c).2).events = s.events ++ t)
  ∧ (∀ (s : Parser300State) (c : List Nat),
      (Parser300.parse s c).1 = .error .protocolError300 →
        (Parser300.parse s c).2.dead = true
        ∧ (∀ c2, (Parser300.parse (Parser300.parse s c).2 c2).1
            = .error .parserClosedError)
        ∧ (Parser300.popEvents (Parser300.parse s c).2).1
            = ((Parser300.parse s c).2).events
        ∧ ∃ t, ((Parser300.parse s c).2).events = s.events ++ t) := by
  constructor
  · intro s c b ctx h
    have hdead := pbParseErrorDead s c _ h
    exact ⟨hdead, fun c2 => pbParseDead _ c2 hdead, rfl,
      pbParseEvents s c⟩
  · intro s c h
    have hdead := p300ParseErrorDead s c _ h
    exact ⟨hdead, fun c2 => p300ParseDead _ c2 hdead, rfl,
      p300ParseEvents s c⟩

theorem c9_error_latching_witness :
    (Parser.parse (Parser.parse Parser.init [88]).2 [49]).1
        = .error .stopIteration
    ∧ (Parser300.parse (Parser300.parse Parser300.init [88]).2 [49]).1
        = .error .parserClosedError :=
  ⟨(c9_error_latching.1 Parser.init [88] 88 [] (by decide)).2.1 [49],
   (c9_error_latching.2 Parser300.init [88] (by decide)).2.1 [49]⟩

set_option maxRecDepth 8000 in
/-- C10. In parser.py, OK / PING / PONG events are appended when the CR is
consumed, before the LF arrives: after `parse(b"+OK\r")` alone the drain
already returns the OK event, and if the next byte is any byte other than LF
the `parse` call raises ProtocolError while the enqueued event stays
drainable. -/
theorem c10_events_enqueued_at_cr :
    ((Parser.parse Parser.init [43, 79, 75, 13]).1 = .ok ()
      ∧ (Parser.popEvents (Parser.parse Parser.init [43, 79, 75, 13]).2).1
          = [.simple .OK])
  ∧ ((Parser.parse Parser.init [80, 73, 78, 71, 13]).1 = .ok ()
      ∧ (Parser.popEvents (Parser.parse Parser.init [80, 73, 78, 71, 13]).2).1
          = [.simple .PING])
  ∧ ((Parser.parse Parser.init [80, 79, 78, 71, 13]).1 = .ok ()
      ∧ (Parser.popEvents (Parser.parse Parser.init [80, 79, 78, 71, 13]).2).1
          = [.simple .PONG])
  ∧ (∀ b2 : Nat, b2 < 256 → b2 ≠ 10 →
      (Parser.parse (Parser.parse Parser.init [43, 79, 75, 13]).2 [b2]).1
          = .error (.protocolError b2 [])
        ∧ ((Parser.parse (Parser.parse Parser.init [43, 79, 75, 13]).2 [b2]).2).events
          = [.simple .OK]) := by decide

theorem c10_events_enqueued_at_cr_witness :
    (Parser.parse (Parser.parse Parser.init [43, 79, 75, 13]).2 [88]).1
        = .error (.protocolError 88 [])
    ∧ ((Parser.parse (Parser.parse Parser.init [43, 79, 75, 13]).2 [88]).2).events
        = [.simple .OK] :=
  c10_events_enqueued_at_cr.2.2.2 88 (by decide) (by decide)

lemma c4auxPerByte (s : ParserState) (op : Operation) (m : MsgFields) (k n : Int)
    (hcl : s.closed = false)
    (hst : s.machineState = .HMSG_PAYLOAD)
    (hpm : s.partialMsg = some (op, m))
    (hk : s.expectedHeaderSize = k) (hn : s.expectedTotalSize = n)
    (h4 : 4 ≤ k) (hkn : k ≤ n)
    (hlen : (s.buffer.length : Int) ≥ n + 2)
    (hterm : pySliceFrom (pySliceTo s.buffer k) (-4) = [13, 10, 13, 10]) :
    ∃ s2 m2, Parser.step s = .cont s2
      ∧ s2.events = s.events ++ [.msg op m2]
      ∧ (m2.header.length : Int) = k - 4
      ∧ (m2.payload.length : Int) = n - k := by
  obtain ⟨cl, dd, ms, buf, evs, pt, ehs, ets, pm⟩ := s
  simp only at hcl hst hpm hk hn hlen hterm ⊢
  subst hcl hst hpm hk hn
  have hne : buf ≠ [] := by
    intro h0
    rw [h0] at hlen
    simp at hlen
    omega
  obtain ⟨b, rest, hbuf⟩ := List.exists_cons_of_ne_nil hne
  subst hbuf
  simp only [Parser.step]
  rw [if_pos hlen, if_neg (not_not_intro hterm)]
  refine ⟨_, _, rfl, rfl, ?_, ?_⟩
  · have h1 : (pySliceTo (b :: rest) ehs).length = ehs.toNat := by
      rw [length_pySliceTo, sliceIdx_of_nonneg _ _ (by omega) (by omega)]
    rw [length_pySliceTo, h1, sliceIdx_neg _ _ (by norm_num)]
    omega
  · rw [length_pySlice, sliceIdx_of_nonneg _ _ (by omega) (by omega),
      sliceIdx_of_nonneg _ _ (by omega) (by omega)]
    omega

lemma c4aux_310 (s : Parser310State) (op : Operation) (m : MsgFields) (k n : Int)
    (hcl : s.closed = false)
    (hst : s.machineState = .HMSG_PAYLOAD)
    (hcur : s.cursor = 0)
    (hpm : s.partialMsg = some (op, m))
    (hk : s.expectedHeaderSize = k) (hn : s.expectedTotalSize = n)
    (h4 : 4 ≤ k) (hkn : k ≤ n)
    (hlen : (s.buffer.length : Int) ≥ n + 2)
    (hterm : pySliceFrom (pySliceTo s.buffer k) (-4) = [13, 10, 13, 10]) :
    ∃ s2 m2, Parser310.step s = .cont s2
      ∧ s2.events = s.events ++ [.msg op m2]
      ∧ (m2.header.length : Int) = k - 4
      ∧ (m2.payload.length : Int) = n - k := by
  obtain ⟨cl, dd, ms, cur, buf, evs, ehs, ets, pm⟩ := s
  simp only at hcl hst hcur hpm hk hn hlen hterm ⊢
  subst hcl hst hcur hpm hk hn
  have hne : buf ≠ [] := by
    intro h0
    rw [h0] at hlen
    simp at hlen
    omega
  have hpos : 0 < buf.length := List.length_pos.mpr hne
  simp only [Parser310.step]
  rw [if_neg (by simp), if_neg hne, dif_neg (by omega),
    if_pos hlen, if_neg (not_not_intro hterm)]
  refine ⟨_, _, rfl, rfl, ?_, ?_⟩
  · have h1 : (pySliceTo buf ehs).length = ehs.toNat := by
      rw [length_pySliceTo, sliceIdx_of_nonneg _ _ (by omega) (by omega)]
    rw [length_pySliceTo, h1, sliceIdx_neg _ _ (by norm_num)]
    omega
  · rw [length_pySlice, sliceIdx_of_nonneg _ _ (by omega) (by omega),
      sliceIdx_of_nonneg _ _ (by omega) (by omega)]
    omega

lemma c4aux_300payload (s : Parser300State) (op : Operation) (m : MsgFields)
    (k n : Int)
    (hcl : s.closed = false)
    (hst : s.machineState = .AWAITING_HMSG_PAYLOAD)
    (hpm : s.partialMsg = some (op, m))
    (hk : s.expectedHeaderSize = k) (hn : s.expectedTotalSize = n)
    (h4 : 4 ≤ k) (hkn : k ≤ n)
    (hlen : (s.buffer.length : Int) ≥ n + 2)
    (hterm : pySlice s.buffer (k - 4) k = [13, 10, 13, 10]) :
    ∃ s2 m2, Parser300.step s = .cont s2
      ∧ s2.events = s.events ++ [.msg op m2]
      ∧ (m2.header.length : Int) = k - 4
      ∧ (m2.payload.length : Int) = n - k := by
  obtain ⟨cl, dd, ms, buf, evs, ehs, ets, pm⟩ := s
  simp only at hcl hst hpm hk hn hlen hterm ⊢
  subst hcl hst hpm hk hn
  have hne : buf ≠ [] := by
    intro h0
    rw [h0] at hlen
    simp at hlen
    omega
  obtain ⟨b, rest, hbuf⟩ := List.exists_cons_of_ne_nil hne
  subst hbuf
  simp only [Parser300.step]
  rw [if_pos hlen, if_neg (not_not_intro hterm)]
  refine ⟨_, _, rfl, rfl, ?_, ?_⟩
  · rw [length_pySliceTo, sliceIdx_of_nonneg _ _ (by omega) (by omega)]
    omega
  · rw [length_pySlice, sliceIdx_of_nonneg _ _ (by omega) (by omega),
      sliceIdx_of_nonneg _ _ (by omega) (by omega)]
    omega

lemma c4aux_300fast (s : Parser300State) (e : Nat) (subject : List Nat)
    (sid : Int) (replyTo : List Nat) (k n : Int)
    (hcl : s.closed = false)
    (hst : s.machineState = .AWAITING_CONTROL_LINE)
    (hb : s.buffer.head? = some 72)
    (hcrlf : findCRLF s.buffer = some e)
    (hargs : hmsgArgs (pySlice s.buffer 5 (e : Int))
      = some (subject, sid, replyTo, k, n))
    (h4 : 4 ≤ k) (hkn : k ≤ n)
    (hlen : (((s.buffer.drop (e + 2)).length : Nat) : Int) ≥ n + 2)
    (hterm : pySlice s.buffer ((e : Int) - 2 + k) ((e : Int) + 2 + k)
      = [13, 10, 13, 10]) :
    ∃ s2 m2, Parser300.step s = .cont s2
      ∧ s2.events = s.events ++ [.msg .HMSG m2]
      ∧ (m2.header.length : Int) = k - 4
      ∧ (m2.payload.length : Int) = n - k := by
  obtain ⟨cl, dd, ms, buf, evs, ehs, ets, pm⟩ := s
  simp only at hcl hst hb hcrlf hargs hlen hterm ⊢
  subst hcl hst
  obtain ⟨b0, rest, hbuf⟩ : ∃ b0 rest, buf = b0 :: rest := by
    cases buf with
    | nil => simp at hb
    | cons x xs => exact ⟨x, xs, rfl⟩
  subst hbuf
  have hb0 : b0 = 72 := by simpa using hb
  subst hb0
  have hlenN := hlen
  rw [List.length_drop] at hlenN
  simp only [Parser300.step]
  rw [if_neg (show ¬((72 : Nat) = 77) by decide), if_pos True.intro]
  simp only [hcrlf, hargs]
  rw [if_pos hlen, if_neg (not_not_intro hterm)]
  refine ⟨_, _, rfl, rfl, ?_, ?_⟩
  · rw [length_pySlice, sliceIdx_of_nonneg _ _ (by omega) (by omega),
      sliceIdx_of_nonneg _ _ (by omega) (by omega)]
    omega
  · rw [length_pySlice, sliceIdx_of_nonneg _ _ (by omega) (by omega),
      sliceIdx_of_nonneg _ _ (by omega) (by omega)]
    omega

/-- C4. Header boundary: in each implementation, whenever an HMSG payload
completes with advertised header_size `k` and total_size `n` (4 ≤ k ≤ n, the
full payload region present and the header region ending in `\r\n\r\n`), the
emitted event's header has length `k - 4` and its payload has length
`n - k`. Covered emission sites: parser.py `HMSG_PAYLOAD`, parser_310.py
`HMSG_PAYLOAD`, parser_300.py `AWAITING_HMSG_PAYLOAD`, and parser_300.py's
fast path that completes an HMSG directly from the control line. -/
theorem c4_header_boundary :
    (∀ (s : ParserState) (op : Operation) (m : MsgFields) (k n : Int),
      s.closed = false →
      s.machineState = .HMSG_PAYLOAD →
      s.partialMsg = some (op, m) →
      s.expectedHeaderSize = k → s.expectedTotalSize = n →
      4 ≤ k → k ≤ n →
      (s.buffer.length : Int) ≥ n + 2 →
      pySliceFrom (pySliceTo s.buffer k) (-4) = [13, 10, 13, 10] →
      ∃ s2 m2, Parser.step s = .cont s2
        ∧ s2.events = s.events ++ [.msg op m2]
        ∧ (m2.header.length : Int) = k - 4
        ∧ (m2.payload.length : Int) = n - k)
  ∧ (∀ (s : Parser310State) (op : Operation) (m : MsgFields) (k n : Int),
      s.closed = false →
      s.machineState = .HMSG_PAYLOAD →
      s.cursor = 0 →
      s.partialMsg = some (op, m) →
      s.expectedHeaderSize = k → s.expectedTotalSize = n →
      4 ≤ k → k ≤ n →
      (s.buffer.length : Int) ≥ n + 2 →
      pySliceFrom (pySliceTo s.buffer k) (-4) = [13, 10, 13, 10] →
      ∃ s2 m2, Parser310.step s = .cont s2
        ∧ s2.events = s.events ++ [.msg op m2]
        ∧ (m2.header.length : Int) = k - 4
        ∧ (m2.payload.length : Int) = n - k)
  ∧ (∀ (s : Parser300State) (op : Operation) (m : MsgFields) (k n : Int),
      s.closed = false →
      s.machineState = .AWAITING_HMSG_PAYLOAD →
      s.partialMsg = some (op, m) →
      s.expectedHeaderSize = k → s.expectedTotalSize = n →
      4 ≤ k → k ≤ n →
      (s.buffer.length : Int) ≥ n + 2 →
      pySlice s.buffer (k - 4) k = [13, 10, 13, 10] →
      ∃ s2 m2, Parser300.step s = .cont s2
        ∧ s2.events = s.events ++ [.msg op m2]
        ∧ (m2.header.length : Int) = k - 4
        ∧ (m2.payload.length : Int) = n - k)
  ∧ (∀ (s : Parser300State) (e : Nat) (subject : List Nat) (sid : Int)
        (replyTo : List Nat) (k n : Int),
      s.closed = false →
      s.machineState = .AWAITING_CONTROL_LINE →
      s.buffer.head? = some 72 →
      findCRLF s.buffer = some e →
      hmsgArgs (pySlice s.buffer 5 (e : Int))
        = some (subject, sid, replyTo, k, n) →
      4 ≤ k → k ≤ n →
      (((s.buffer.drop (e + 2)).length : Nat) : Int) ≥ n + 2 →
      pySlice s.buffer ((e : Int) - 2 + k) ((e : Int) + 2 + k)
        = [13, 10, 13, 10] →
      ∃ s2 m2, Parser300.step s = .cont s2
        ∧ s2.events = s.events ++ [.msg .HMSG m2]
        ∧ (m2.header.length : Int) = k - 4
        ∧ (m2.payload.length : Int) = n - k) :=
  ⟨c4auxPerByte, c4aux_310, c4aux_300payload, c4aux_300fast⟩

/-- Payload region of the HMSG scenario: `Hdr-A: v\r\n\r\nhello\r\n`
(19 bytes; header_size 12, total_size 17). -/
def c4HdrRegion : List Nat :=
  [72, 100, 114, 45, 65, 58, 32, 118, 13, 10, 13, 10, 104, 101, 108, 108,
   111, 13, 10]

/-- In-progress HMSG fields after the control line `HMSG foo 9 12 17`. -/
def c4Fields : MsgFields := ⟨9, [102, 111, 111], [], [], []⟩

/-- parser.py state suspended in HMSG_PAYLOAD with the payload region. -/
def c4StatePB : ParserState :=
  ⟨false, false, .HMSG_PAYLOAD, c4HdrRegion, [], [], 12, 17,
   some (.HMSG, c4Fields)⟩

/-- parser_310.py state suspended in HMSG_PAYLOAD with the payload region. -/
def c4State310 : Parser310State :=
  ⟨false, false, .HMSG_PAYLOAD, 0, c4HdrRegion, [], 12, 17,
   some (.HMSG, c4Fields)⟩

/-- parser_300.py state suspended in AWAITING_HMSG_PAYLOAD. -/
def c4State300 : Parser300State :=
  ⟨false, false, .AWAITING_HMSG_PAYLOAD, c4HdrRegion, [], 12, 17,
   some (.HMSG, c4Fields)⟩

/-- parser_300.py fresh-buffer state holding the complete HMSG frame. -/
def c4State300fast : Parser300State :=
  ⟨false, false, .AWAITING_CONTROL_LINE, hmsgScenario, [], 0, 0, none⟩

theorem c4_header_boundary_witness :
    (∃ s2 m2, Parser.step c4StatePB = .cont s2
      ∧ s2.events = c4StatePB.events ++ [.msg .HMSG m2]
      ∧ (m2.header.length : Int) = 12 - 4
      ∧ (m2.payload.length : Int) = 17 - 12)
  ∧ (∃ s2 m2, Parser310.step c4State310 = .cont s2
      ∧ s2.events = c4State310.events ++ [.msg .HMSG m2]
      ∧ (m2.header.length : Int) = 12 - 4
      ∧ (m2.payload.length : Int) = 17 - 12)
  ∧ (∃ s2 m2, Parser300.step c4State300 = .cont s2
      ∧ s2.events = c4State300.events ++ [.msg .HMSG m2]
      ∧ (m2.header.length : Int) = 12 - 4
      ∧ (m2.payload.length : Int) = 17 - 12)
  ∧ (∃ s2 m2, Parser300.step c4State300fast = .cont s2
      ∧ s2.events = c4State300fast.events ++ [.msg .HMSG m2]
      ∧ (m2.header.length : Int) = 12 - 4
      ∧ (m2.payload.length : Int) = 17 - 12) :=
  ⟨c4_header_boundary.1 c4StatePB .HMSG c4Fields 12 17 rfl rfl rfl rfl rfl
      (by decide) (by decide) (by decide) (by decide),
   c4_header_boundary.2.1 c4State310 .HMSG c4Fields 12 17 rfl rfl rfl rfl rfl
      rfl (by decide) (by decide) (by decide) (by decide),
   c4_header_boundary.2.2.1 c4State300 .HMSG c4Fields 12 17 rfl rfl rfl rfl
      rfl (by decide) (by decide) (by decide) (by decide),
   c4_header_boundary.2.2.2 c4State300fast 16 [102, 111, 111] 9 [] 12 17 rfl
      rfl (by decide) (by decide) (by decide) (by decide) (by decide)
      (by decide) (by decide)⟩
